import Mathlib

/-!
Shallow embedding of `src/homework.py` (fitness-tracker homework module).

Python numeric values (`int` and `float`) are modelled as exact rationals
`ℚ`; Python's float floor division `a // b` is modelled as `⌊a / b⌋` cast
back to `ℚ`.  Fallible operations (division by zero raises in Python,
dispatch can raise `ValueError` / `TypeError`) are modelled with
`Option` / `Except`.
-/

namespace Homework

/-- Dataclass `InfoMessage`: the five display fields of a training summary. -/
structure InfoMessage where
  training_type : String
  duration : ℚ
  distance : ℚ
  speed : ℚ
  calories : ℚ
deriving DecidableEq

/-- Class constant `Training.M_IN_KM = 1000`. -/
def M_IN_KM : ℚ := 1000

/-- Class constant `Training.MIN_IN_HOUR = 60`. -/
def MIN_IN_HOUR : ℚ := 60

/-- The training hierarchy of the source as a sum type: `Running`,
`SportsWalking` and `Swimming`, each carrying the base dataclass fields
`action`, `duration`, `weight` plus its own extra fields, in declaration
order.  The abstract base `Training` itself is not a constructor: its
only variant-independent behaviour is captured by the methods below. -/
inductive Training where
  | running (action duration weight : ℚ)
  | sportsWalking (action duration weight height : ℚ)
  | swimming (action duration weight length_pool count_pool : ℚ)
deriving DecidableEq

/-- Field `action` of the base dataclass. -/
def Training.action : Training → ℚ
  | .running a _ _ => a
  | .sportsWalking a _ _ _ => a
  | .swimming a _ _ _ _ => a

/-- Field `duration` of the base dataclass. -/
def Training.duration : Training → ℚ
  | .running _ d _ => d
  | .sportsWalking _ d _ _ => d
  | .swimming _ d _ _ _ => d

/-- Field `weight` of the base dataclass. -/
def Training.weight : Training → ℚ
  | .running _ _ w => w
  | .sportsWalking _ _ w _ => w
  | .swimming _ _ w _ _ => w

/-- Class constant `LEN_STEP`: `0.65` on the base class, inherited by
`Running` and `SportsWalking`, overridden to `1.38` by `Swimming`. -/
def Training.LEN_STEP : Training → ℚ
  | .running _ _ _ => 0.65
  | .sportsWalking _ _ _ _ => 0.65
  | .swimming _ _ _ _ _ => 1.38

/-- Method `Training.get_distance`:
`self.action * self.LEN_STEP / self.M_IN_KM`, inherited unchanged by all
three variants. -/
def Training.get_distance (t : Training) : ℚ :=
  t.action * t.LEN_STEP / M_IN_KM

/-- Method `get_mean_speed`: the base implementation is
`self.get_distance() / self.duration`; `Swimming` overrides it with
`self.length_pool * self.count_pool / self.M_IN_KM / self.duration`. -/
def Training.get_mean_speed : Training → ℚ
  | .running a d w => (Training.running a d w).get_distance / d
  | .sportsWalking a d w h => (Training.sportsWalking a d w h).get_distance / d
  | .swimming _ d _ lp cp => lp * cp / M_IN_KM / d

/-- Class constant `Running.SPEND_CALORIES_FACTOR = 18`. -/
def Running.SPEND_CALORIES_FACTOR : ℚ := 18

/-- Class constant `Running.SPEND_CALORIES_FACTOR_1 = 20`. -/
def Running.SPEND_CALORIES_FACTOR_1 : ℚ := 20

/-- Class constant `SportsWalking.SPEND_CALORIES_FACTOR = 0.035`. -/
def SportsWalking.SPEND_CALORIES_FACTOR : ℚ := 0.035

/-- Class constant `SportsWalking.SPEND_CALORIES_FACTOR_1 = 2`, used as the
exponent in the walking formula. -/
def SportsWalking.SPEND_CALORIES_FACTOR_1 : ℕ := 2

/-- Class constant `SportsWalking.SPEND_CALORIES_FACTOR_2 = 0.029`. -/
def SportsWalking.SPEND_CALORIES_FACTOR_2 : ℚ := 0.029

/-- Class constant `Swimming.SPEND_CALORIES_FACTOR = 1.1`. -/
def Swimming.SPEND_CALORIES_FACTOR : ℚ := 1.1

/-- Class constant `Swimming.SPEND_CALORIES_FACTOR_1 = 2`. -/
def Swimming.SPEND_CALORIES_FACTOR_1 : ℚ := 2

/-- Method `get_spent_calories` of each concrete variant.  The walking
branch squares the mean speed first (`** SPEND_CALORIES_FACTOR_1`) and
then floor-divides by `height` (`//`), exactly as the source does. -/
def Training.get_spent_calories : Training → ℚ
  | .running a d w =>
      (Running.SPEND_CALORIES_FACTOR * (Training.running a d w).get_mean_speed
          - Running.SPEND_CALORIES_FACTOR_1)
        * w / M_IN_KM * (d * MIN_IN_HOUR)
  | .sportsWalking a d w h =>
      (SportsWalking.SPEND_CALORIES_FACTOR * w
          + ((⌊(Training.sportsWalking a d w h).get_mean_speed
                ^ SportsWalking.SPEND_CALORIES_FACTOR_1 / h⌋ : ℤ) : ℚ)
            * SportsWalking.SPEND_CALORIES_FACTOR_2 * w)
        * d * MIN_IN_HOUR
  | .swimming a d w lp cp =>
      ((Training.swimming a d w lp cp).get_mean_speed
          + Swimming.SPEND_CALORIES_FACTOR)
        * Swimming.SPEND_CALORIES_FACTOR_1 * w

/-- Checked form of `get_mean_speed`: Python raises `ZeroDivisionError`
when `self.duration == 0`, so the division is modelled as fallible. -/
def Training.get_mean_speed? (t : Training) : Option ℚ :=
  match t with
  | .swimming _ d _ lp cp =>
      if d = 0 then none else some (lp * cp / M_IN_KM / d)
  | t => if t.duration = 0 then none else some (t.get_distance / t.duration)

/-- Checked form of `get_spent_calories`: the running and walking formulas
first evaluate `get_mean_speed()` (raising if `duration == 0`), and the
walking formula then floor-divides by `height` (raising if `height == 0`),
in that evaluation order. -/
def Training.get_spent_calories? (t : Training) : Option ℚ :=
  match t with
  | .running a d w =>
      (Training.running a d w).get_mean_speed?.map fun v =>
        (Running.SPEND_CALORIES_FACTOR * v - Running.SPEND_CALORIES_FACTOR_1)
          * w / M_IN_KM * (d * MIN_IN_HOUR)
  | .sportsWalking a d w h =>
      (Training.sportsWalking a d w h).get_mean_speed?.bind fun v =>
        if h = 0 then none
        else some ((SportsWalking.SPEND_CALORIES_FACTOR * w
            + ((⌊v ^ SportsWalking.SPEND_CALORIES_FACTOR_1 / h⌋ : ℤ) : ℚ)
              * SportsWalking.SPEND_CALORIES_FACTOR_2 * w) * d * MIN_IN_HOUR)
  | .swimming a d w lp cp =>
      (Training.swimming a d w lp cp).get_mean_speed?.map fun v =>
        (v + Swimming.SPEND_CALORIES_FACTOR) * Swimming.SPEND_CALORIES_FACTOR_1 * w

/-- Value of `self.__class__.__name__` for each variant. -/
def Training.className : Training → String
  | .running _ _ _ => "Running"
  | .sportsWalking _ _ _ _ => "SportsWalking"
  | .swimming _ _ _ _ _ => "Swimming"

/-- Method `Training.show_training_info`: builds the `InfoMessage` from the
class name, the duration, and the three computed metrics. -/
def Training.show_training_info (t : Training) : InfoMessage :=
  { training_type := t.className
    duration := t.duration
    distance := t.get_distance
    speed := t.get_mean_speed
    calories := t.get_spent_calories }

/-- Rounding to the nearest integer with ties going to the even integer,
as Python's fixed-point float formatting does. -/
def roundHalfEven (q : ℚ) : ℤ :=
  if q - ⌊q⌋ < 1 / 2 then ⌊q⌋
  else if q - ⌊q⌋ > 1 / 2 then ⌊q⌋ + 1
  else if ⌊q⌋ % 2 = 0 then ⌊q⌋ else ⌊q⌋ + 1

/-- Left-pads a digit string with zeros to width `w`. -/
def padZeros (s : String) (w : Nat) : String :=
  String.mk (List.replicate (w - s.length) '0') ++ s

/-- Fixed-point rendering with three decimals, the `:.3f` conversion used
by `InfoMessage.MESSAGE_TEXT`. -/
def formatFixed3 (q : ℚ) : String :=
  let m := roundHalfEven (q * 1000)
  let sign := if m < 0 then "-" else ""
  sign ++ toString (m.natAbs / 1000) ++ "." ++ padZeros (toString (m.natAbs % 1000)) 3

/-- Method `InfoMessage.get_message`: instantiates `MESSAGE_TEXT` with the
five fields, each numeric field formatted to three decimals. -/
def InfoMessage.get_message (msg : InfoMessage) : String :=
  "Тип тренировки: " ++ msg.training_type
    ++ "; Длительность: " ++ formatFixed3 msg.duration
    ++ " ч.; Дистанция: " ++ formatFixed3 msg.distance
    ++ " км; Ср. скорость: " ++ formatFixed3 msg.speed
    ++ " км/ч; Потрачено ккал: " ++ formatFixed3 msg.calories ++ "."

/-- Ways `read_package` can fail.  The source itself raises
`ValueError('Не известный тип тренировки.')` for an unknown code
(`unknownWorkoutType`) and relies on Python's positional unpacking, whose
failure is a generic `TypeError` (`genericUnpackError`).  The constructor
`arityMismatch` is the explicit, descriptive arity error that the spec's
§7 asks a port to raise instead; it is present only so that the spec's
requirement can be stated, and the source model never produces it. -/
inductive DispatchError where
  | unknownWorkoutType
  | genericUnpackError
  | arityMismatch
deriving DecidableEq

/-- Function `read_package`: dispatches a workout-type code to the variant
constructor, unpacking `data` positionally into the dataclass fields.  An
unknown code raises `ValueError`; a known code with a `data` of the wrong
length fails inside Python's positional unpacking with a `TypeError`. -/
def read_package (workout_type : String) (data : List ℚ) : Except DispatchError Training :=
  if workout_type = "SWM" then
    match data with
    | [a, d, w, lp, cp] => .ok (.swimming a d w lp cp)
    | _ => .error .genericUnpackError
  else if workout_type = "RUN" then
    match data with
    | [a, d, w] => .ok (.running a d w)
    | _ => .error .genericUnpackError
  else if workout_type = "WLK" then
    match data with
    | [a, d, w, h] => .ok (.sportsWalking a d w h)
    | _ => .error .genericUnpackError
  else .error .unknownWorkoutType

/-- Validity preconditions on a raw reading, from §3 of the spec:
`duration > 0`, `weight > 0`, walking's `height > 0`, and swimming's pool
fields non-negative.  (The bound on `action` is stated separately by the
claims that use it.) -/
def Training.valid : Training → Prop
  | .running _ d w => 0 < d ∧ 0 < w
  | .sportsWalking _ d w h => 0 < d ∧ 0 < w ∧ 0 < h
  | .swimming _ d w lp cp => 0 < d ∧ 0 < w ∧ 0 ≤ lp ∧ 0 ≤ cp

end Homework

namespace Homework

/-- C1: for the walking workout built from `("WLK", [9000, 1, 75, 180])`,
`get_distance` and `get_mean_speed` are both 5.85, the calorie formula
squares the mean speed first (5.85 squared is 34.2225) and then
floor-divides by the height 180 giving 0, and `get_spent_calories`
is 157.5. -/
theorem walking_example_metrics :
    (Training.sportsWalking 9000 1 75 180).get_distance = 5.85 ∧
    (Training.sportsWalking 9000 1 75 180).get_mean_speed = 5.85 ∧
    (5.85 : ℚ) ^ 2 = 34.2225 ∧
    (⌊(Training.sportsWalking 9000 1 75 180).get_mean_speed ^ 2 / 180⌋ : ℤ) = 0 ∧
    (Training.sportsWalking 9000 1 75 180).get_spent_calories = 157.5 := by
  refine ⟨?_, ?_, by norm_num, ?_, ?_⟩ <;>
    norm_num [Training.get_spent_calories, Training.get_mean_speed, Training.get_distance,
      Training.action, Training.LEN_STEP, M_IN_KM, MIN_IN_HOUR,
      SportsWalking.SPEND_CALORIES_FACTOR, SportsWalking.SPEND_CALORIES_FACTOR_1,
      SportsWalking.SPEND_CALORIES_FACTOR_2, Int.floor_eq_zero_iff]

/-- C2 counterexample: the running workout built from
`("RUN", [15000, 1, 75])` does not spend 744.75 kcal as claimed; indeed
the claim's own formula `(18 * 9.75 - 20) * 75 / 1000 * (1 * 60)`
evaluates to 699.75, not 744.75. -/
theorem running_example_spec_value_refuted :
    (Training.running 15000 1 75).get_spent_calories ≠ 744.75 ∧
    ((18 * 9.75 - 20) * 75 / 1000 * (1 * 60) : ℚ) = 699.75 := by
  constructor <;>
    norm_num [Training.get_spent_calories, Training.get_mean_speed, Training.get_distance,
      Training.action, Training.LEN_STEP, M_IN_KM, MIN_IN_HOUR,
      Running.SPEND_CALORIES_FACTOR, Running.SPEND_CALORIES_FACTOR_1]

/-- C2 (amended): for the running workout built from
`("RUN", [15000, 1, 75])`, `get_distance` and `get_mean_speed` are both
9.75 and `get_spent_calories` equals
`(18 * 9.75 - 20) * 75 / 1000 * (1 * 60)`, which is 699.75. -/
theorem running_example_metrics :
    (Training.running 15000 1 75).get_distance = 9.75 ∧
    (Training.running 15000 1 75).get_mean_speed = 9.75 ∧
    (Training.running 15000 1 75).get_spent_calories
      = (18 * 9.75 - 20) * 75 / 1000 * (1 * 60) ∧
    (Training.running 15000 1 75).get_spent_calories = 699.75 := by
  refine ⟨?_, ?_, ?_, ?_⟩ <;>
    norm_num [Training.get_spent_calories, Training.get_mean_speed, Training.get_distance,
      Training.action, Training.LEN_STEP, M_IN_KM, MIN_IN_HOUR,
      Running.SPEND_CALORIES_FACTOR, Running.SPEND_CALORIES_FACTOR_1]

/-- C3: for the swimming workout built from `("SWM", [720, 1, 80, 25, 40])`,
`get_distance` is 0.9936 (using the overridden step length 1.38),
the overridden `get_mean_speed` is 1, and `get_spent_calories` is 336. -/
theorem swimming_example_metrics :
    (Training.swimming 720 1 80 25 40).get_distance = 0.9936 ∧
    (Training.swimming 720 1 80 25 40).get_mean_speed = 1 ∧
    (Training.swimming 720 1 80 25 40).get_spent_calories = 336 := by
  refine ⟨?_, ?_, ?_⟩ <;>
    norm_num [Training.get_spent_calories, Training.get_mean_speed, Training.get_distance,
      Training.action, Training.LEN_STEP, M_IN_KM,
      Swimming.SPEND_CALORIES_FACTOR, Swimming.SPEND_CALORIES_FACTOR_1]

/-- C4 counterexample: the known code `"RUN"` with a two-element argument
list does not succeed, so dispatch success is not exactly "the code is
known": arity must match as well. -/
theorem dispatch_known_code_can_fail :
    read_package "RUN" [1, 2] = Except.error DispatchError.genericUnpackError := rfl

/-- C4 (amended): dispatch succeeds exactly when the code is one of
`"SWM"`, `"RUN"`, `"WLK"` and the argument list length matches the
variant's field count (5, 3 and 4 respectively), binding positional
arguments to fields in declaration order; every other code fails with
the unknown-workout-type error. -/
theorem dispatch_characterization :
    (∀ a d w : ℚ, read_package "RUN" [a, d, w] = Except.ok (Training.running a d w)) ∧
    (∀ a d w h : ℚ, read_package "WLK" [a, d, w, h] = Except.ok (Training.sportsWalking a d w h)) ∧
    (∀ a d w lp cp : ℚ, read_package "SWM" [a, d, w, lp, cp] = Except.ok (Training.swimming a d w lp cp)) ∧
    (∀ (wt : String) (data : List ℚ), wt ≠ "SWM" → wt ≠ "RUN" → wt ≠ "WLK" →
      read_package wt data = Except.error DispatchError.unknownWorkoutType) ∧
    (∀ (wt : String) (data : List ℚ) (t : Training), read_package wt data = Except.ok t →
      (wt = "SWM" ∧ data.length = 5) ∨ (wt = "RUN" ∧ data.length = 3) ∨
        (wt = "WLK" ∧ data.length = 4)) := by
  refine ⟨fun _ _ _ => rfl, fun _ _ _ _ => rfl, fun _ _ _ _ _ => rfl, ?_, ?_⟩
  · intro wt data h1 h2 h3
    simp [read_package, h1, h2, h3]
  · intro wt data t h
    by_cases h1 : wt = "SWM"
    · subst h1
      left
      refine ⟨rfl, ?_⟩
      rcases data with _ | ⟨a, _ | ⟨d, _ | ⟨w, _ | ⟨lp, _ | ⟨cp, _ | ⟨x, rest⟩⟩⟩⟩⟩⟩ <;>
        simp [read_package] at h ⊢
    · by_cases h2 : wt = "RUN"
      · subst h2
        right; left
        refine ⟨rfl, ?_⟩
        rcases data with _ | ⟨a, _ | ⟨d, _ | ⟨w, _ | ⟨x, rest⟩⟩⟩⟩ <;>
          simp [read_package] at h ⊢
      · by_cases h3 : wt = "WLK"
        · subst h3
          right; right
          refine ⟨rfl, ?_⟩
          rcases data with _ | ⟨a, _ | ⟨d, _ | ⟨w, _ | ⟨hh, _ | ⟨x, rest⟩⟩⟩⟩⟩ <;>
            simp [read_package] at h ⊢
        · simp [read_package, h1, h2, h3] at h

/-- Witness for C4: dispatch at the concrete running package succeeds, and
the unknown code `"XYZ"` is rejected with the unknown-workout-type error. -/
theorem dispatch_characterization_witness :
    read_package "RUN" [15000, 1, 75] = Except.ok (Training.running 15000 1 75) ∧
    read_package "XYZ" [1] = Except.error DispatchError.unknownWorkoutType :=
  ⟨dispatch_characterization.1 15000 1 75,
    dispatch_characterization.2.2.2.1 "XYZ" [1] (by decide) (by decide) (by decide)⟩

end Homework

namespace Homework

/-- C5 counterexample: constructing with `duration = 0` (running package)
or `height = 0` (walking package) does not fail: `read_package` returns
the constructed calculator, performing no validation. -/
theorem zero_divisor_construction_succeeds :
    read_package "RUN" [15000, 0, 75] = Except.ok (Training.running 15000 0 75) ∧
    read_package "WLK" [9000, 1, 75, 0] = Except.ok (Training.sportsWalking 9000 1 75 0) :=
  ⟨rfl, rfl⟩

/-- C5 (amended): construction with a zero `duration` or a zero `height`
succeeds; the zero divisor instead makes the later computation fail with
a division-by-zero fault: `get_mean_speed` fails for the zero-duration
running calculator, and `get_spent_calories` fails for the zero-height
walking calculator. -/
theorem zero_divisor_fault_at_computation_time :
    read_package "RUN" [15000, 0, 75] ≠ Except.error DispatchError.unknownWorkoutType ∧
    read_package "WLK" [9000, 1, 75, 0] ≠ Except.error DispatchError.unknownWorkoutType ∧
    (Training.running 15000 0 75).get_mean_speed? = none ∧
    (Training.sportsWalking 9000 1 75 0).get_spent_calories? = none := by
  refine ⟨by simp [read_package], by simp [read_package], rfl, ?_⟩
  simp [Training.get_spent_calories?, Training.get_mean_speed?, Training.duration]

/-- C6 counterexample: for the known code `"WLK"` with a three-element
argument list, construction fails with the generic positional-unpacking
error, which is not the explicit descriptive arity-mismatch error the
claim asks for. -/
theorem wrong_arity_error_is_generic :
    read_package "WLK" [9000, 1, 75] = Except.error DispatchError.genericUnpackError ∧
    DispatchError.genericUnpackError ≠ DispatchError.arityMismatch :=
  ⟨rfl, by decide⟩

/-- C6 (amended): for each known code, an argument list whose length
differs from that variant's field count makes construction fail, but with
the generic positional-unpacking error rather than an explicit
arity-mismatch error. -/
theorem wrong_arity_fails_with_generic_error :
    ∀ data : List ℚ,
      (data.length ≠ 3 → read_package "RUN" data = Except.error DispatchError.genericUnpackError) ∧
      (data.length ≠ 4 → read_package "WLK" data = Except.error DispatchError.genericUnpackError) ∧
      (data.length ≠ 5 → read_package "SWM" data = Except.error DispatchError.genericUnpackError) := by
  intro data
  refine ⟨?_, ?_, ?_⟩ <;> intro hlen <;>
    rcases data with _ | ⟨a, _ | ⟨d, _ | ⟨w, _ | ⟨x, _ | ⟨y, _ | ⟨z, rest⟩⟩⟩⟩⟩⟩ <;>
    simp_all [read_package]

/-- Witness for C6: the empty argument list has the wrong arity for all
three known codes, and each dispatch fails with the generic unpacking
error. -/
theorem wrong_arity_fails_with_generic_error_witness :
    read_package "RUN" [] = Except.error DispatchError.genericUnpackError ∧
    read_package "WLK" [] = Except.error DispatchError.genericUnpackError ∧
    read_package "SWM" [] = Except.error DispatchError.genericUnpackError :=
  ⟨(wrong_arity_fails_with_generic_error []).1 (by decide),
    (wrong_arity_fails_with_generic_error []).2.1 (by decide),
    (wrong_arity_fails_with_generic_error []).2.2 (by decide)⟩

/-- C7: for every variant with valid fields (`duration > 0`, `weight > 0`,
walking's `height > 0`, swimming's pool fields non-negative) and a
non-negative `action`, both `get_distance` and `get_mean_speed` are
non-negative. -/
theorem distance_and_speed_nonneg :
    ∀ t : Training, t.valid → 0 ≤ t.action → 0 ≤ t.get_distance ∧ 0 ≤ t.get_mean_speed := by
  intro t hv ha
  cases t with
  | running a d w =>
    obtain ⟨hd, hw⟩ := hv
    simp only [Training.action] at ha
    have h1 : (0 : ℚ) ≤ (Training.running a d w).get_distance := by
      simp only [Training.get_distance, Training.action, Training.LEN_STEP, M_IN_KM]
      exact div_nonneg (mul_nonneg ha (by norm_num)) (by norm_num)
    exact ⟨h1, by simp only [Training.get_mean_speed]; exact div_nonneg h1 hd.le⟩
  | sportsWalking a d w h =>
    obtain ⟨hd, hw, hh⟩ := hv
    simp only [Training.action] at ha
    have h1 : (0 : ℚ) ≤ (Training.sportsWalking a d w h).get_distance := by
      simp only [Training.get_distance, Training.action, Training.LEN_STEP, M_IN_KM]
      exact div_nonneg (mul_nonneg ha (by norm_num)) (by norm_num)
    exact ⟨h1, by simp only [Training.get_mean_speed]; exact div_nonneg h1 hd.le⟩
  | swimming a d w lp cp =>
    obtain ⟨hd, hw, hlp, hcp⟩ := hv
    simp only [Training.action] at ha
    have h1 : (0 : ℚ) ≤ (Training.swimming a d w lp cp).get_distance := by
      simp only [Training.get_distance, Training.action, Training.LEN_STEP, M_IN_KM]
      exact div_nonneg (mul_nonneg ha (by norm_num)) (by norm_num)
    refine ⟨h1, ?_⟩
    simp only [Training.get_mean_speed, M_IN_KM]
    exact div_nonneg (div_nonneg (mul_nonneg hlp hcp) (by norm_num)) hd.le

/-- Witness for C7: the concrete running package `[15000, 1, 75]` is valid,
has non-negative action, and its distance and mean speed are
non-negative. -/
theorem distance_and_speed_nonneg_witness :
    0 ≤ (Training.running 15000 1 75).get_distance ∧
    0 ≤ (Training.running 15000 1 75).get_mean_speed :=
  distance_and_speed_nonneg (Training.running 15000 1 75)
    (by exact ⟨by norm_num, by norm_num⟩) (by norm_num [Training.action])

/-- C8: summarising is deterministic: two calculators built by
`read_package` from identical inputs produce byte-identical formatted
messages. -/
theorem summary_deterministic :
    ∀ (wt : String) (data : List ℚ) (t₁ t₂ : Training),
      read_package wt data = Except.ok t₁ → read_package wt data = Except.ok t₂ →
      t₁.show_training_info.get_message = t₂.show_training_info.get_message := by
  intro wt data t₁ t₂ h₁ h₂
  rw [h₁] at h₂
  injection h₂ with h
  rw [h]

/-- Witness for C8: determinism at the concrete swimming package. -/
theorem summary_deterministic_witness :
    (Training.swimming 720 1 80 25 40).show_training_info.get_message =
      (Training.swimming 720 1 80 25 40).show_training_info.get_message :=
  summary_deterministic "SWM" [720, 1, 80, 25, 40] _ _ rfl rfl

/-- C9: for running and walking, mean speed times duration equals distance
whenever the duration is non-zero; for swimming the identity fails at the
valid package `[720, 1, 80, 25, 40]`, whose distance is 0.9936 km while
speed times duration is 1 km. -/
theorem speed_times_duration_vs_distance :
    (∀ a d w : ℚ, d ≠ 0 →
      (Training.running a d w).get_mean_speed * (Training.running a d w).duration =
        (Training.running a d w).get_distance) ∧
    (∀ a d w h : ℚ, d ≠ 0 →
      (Training.sportsWalking a d w h).get_mean_speed * (Training.sportsWalking a d w h).duration =
        (Training.sportsWalking a d w h).get_distance) ∧
    (Training.swimming 720 1 80 25 40).valid ∧
    (Training.swimming 720 1 80 25 40).get_mean_speed * (Training.swimming 720 1 80 25 40).duration ≠
      (Training.swimming 720 1 80 25 40).get_distance := by
  refine ⟨?_, ?_, ?_, ?_⟩
  · intro a d w hd
    simp only [Training.get_mean_speed, Training.duration]
    field_simp
  · intro a d w h hd
    simp only [Training.get_mean_speed, Training.duration]
    field_simp
  · exact ⟨by norm_num, by norm_num, by norm_num, by norm_num⟩
  · norm_num [Training.get_mean_speed, Training.get_distance, Training.duration,
      Training.action, Training.LEN_STEP, M_IN_KM]

/-- Witness for C9: the identity instantiated at the concrete running
package with duration 2. -/
theorem speed_times_duration_vs_distance_witness :
    (Training.running 15000 2 75).get_mean_speed * (Training.running 15000 2 75).duration =
      (Training.running 15000 2 75).get_distance :=
  speed_times_duration_vs_distance.1 15000 2 75 (by norm_num)

/-- C10: a valid running reading with a mean speed below 20/18 km/h — here
action 1000, duration 1, weight 75, mean speed 0.65 — makes
`get_spent_calories` strictly negative. -/
theorem running_calories_can_be_negative :
    (Training.running 1000 1 75).valid ∧
    (0 : ℚ) ≤ (Training.running 1000 1 75).action ∧
    18 * (Training.running 1000 1 75).get_mean_speed < 20 ∧
    (Training.running 1000 1 75).get_spent_calories < 0 := by
  refine ⟨⟨by norm_num, by norm_num⟩, ?_, ?_, ?_⟩ <;>
    norm_num [Training.action, Training.get_mean_speed, Training.get_distance,
      Training.get_spent_calories, Training.LEN_STEP, M_IN_KM, MIN_IN_HOUR,
      Running.SPEND_CALORIES_FACTOR, Running.SPEND_CALORIES_FACTOR_1]

end Homework
